import Mathlib

set_option maxRecDepth 100000

/-!
Formal model of `src/moon_lander.py`.

The terrain generator works entirely on Python ints, so it is embedded over
`Int` and is fully executable.  Python evaluates the band constants through
IEEE doubles before truncating, so the literal values appearing below are the
exact integers the source computes:
  `int(HEIGHT*0.45) = 292`, `int(HEIGHT*0.7) = 454` (since `650*0.7`
  evaluates to `454.99999999999994`), `int(HEIGHT*0.35) = 227`,
  `int(HEIGHT*0.85) = 552`, `int(WIDTH*0.15) = 135`, `int(WIDTH*0.8) = 720`,
  and `int(HEIGHT*0.6) = 390`.

The vehicle model and the collision classifier use trigonometry and real
arithmetic; they are embedded over `ℝ`.

`random.Random(seed)` is Python's standard library, not part of this
repository; it is modelled abstractly (see `RandState`).
-/

/-- Screen width in pixels (`WIDTH = 900` in the source). -/
def WIDTH : Int := 900

/-- Screen height in pixels (`HEIGHT = 650` in the source). -/
def HEIGHT : Int := 650

/-- Landing pad width (`PAD_WIDTH = 120`). -/
def PAD_WIDTH : Int := 120

/-- Landing pad height (`PAD_HEIGHT = 8`). -/
def PAD_HEIGHT : Int := 8

/-- Modelled from the spec: the "Random source" collaborator (Python's
`random.Random(seed)`, standard library code outside this repository).
A seed is identified with the infinite sequence of raw draws it induces;
`idx` counts how many draws have been consumed. -/
structure RandState where
  stream : Nat → Int
  idx : Nat

/-- Modelled from the spec: `rng.randint(lo, hi)` returns a value in
`[lo, hi]` (both ends inclusive) and advances the generator.  Folding the
raw draw into the range with `emod` makes every in-range sequence of results
realisable by some stream, so quantifying over all streams covers every
possible seed. -/
def randint (lo hi : Int) (r : RandState) : Int × RandState :=
  (lo + (r.stream r.idx - lo) % (hi - lo + 1), ⟨r.stream, r.idx + 1⟩)

/-- Source `clamp(x, lo, hi) = max(lo, min(hi, x))` (line 42), at `Int`
where the terrain generator uses it. -/
def clamp (x lo hi : Int) : Int := max lo (min hi x)

/-- Terrain `while x <= WIDTH` loop (source lines 77-81): append `(x, y)`,
advance `x` by `step = 30`, perturb `y` by `randint(-35, 35)` and clamp it
into `[227, 552]`.  The `Nat` argument is recursion fuel only: the loop runs
at most 31 iterations (x = 0, 30, ..., 900), so any fuel of at least 32
reproduces the Python loop exactly. -/
def terrainLoop (r : RandState) (x y : Int) : Nat → List (Int × Int) × RandState
  | 0 => ([], r)
  | n + 1 =>
    if x ≤ WIDTH then
      let dr := randint (-35) 35 r
      let y1 := clamp (y + dr.1) 227 552
      let rest := terrainLoop dr.2 (x + 30) y1 n
      ((x, y) :: rest.1, rest.2)
    else ([], r)

/-- Terrain points before flattening, together with the generator state left
for the pad draw: `y = rng.randint(int(HEIGHT*0.45), int(HEIGHT*0.7))`
(line 74) followed by the build loop. -/
def terrainDraws (r0 : RandState) : List (Int × Int) × RandState :=
  let yr := randint 292 454 r0
  terrainLoop yr.2 0 yr.1 32

/-- Raw (pre-flattening) terrain points of a run. -/
def terrainPts (r0 : RandState) : List (Int × Int) := (terrainDraws r0).1

/-- Pad centre x-coordinate: `pad_x = rng.randint(int(WIDTH*0.15), int(WIDTH*0.8))`
(line 83), drawn right after the terrain loop. -/
def padXOf (r0 : RandState) : Int := (randint 135 720 (terrainDraws r0).2).1

/-- Flattening band test of source line 88:
`pad_x - PAD_WIDTH//2 - 30 <= px <= pad_x + PAD_WIDTH//2 + 30`. -/
abbrev inBand (pad_x x : Int) : Prop :=
  pad_x - PAD_WIDTH / 2 - 30 ≤ x ∧ x ≤ pad_x + PAD_WIDTH / 2 + 30

/-- Flattening pass of source lines 85-92.  The accumulator is the `pad_y`
variable (`none` encodes Python's `None`): the first point whose x lies in
the band fixes `pad_y`, and every in-band point gets its y overwritten with
that value. -/
def flattenLoop (pad_x : Int) : List (Int × Int) → Option Int → List (Int × Int) × Option Int
  | [], acc => ([], acc)
  | (px, py) :: rest, acc =>
    if inBand pad_x px then
      let y0 := acc.getD py
      let t := flattenLoop pad_x rest (some y0)
      ((px, y0) :: t.1, t.2)
    else
      let t := flattenLoop pad_x rest acc
      ((px, py) :: t.1, t.2)

/-- Axis-aligned rectangle with pygame's `Rect` field names. -/
structure Rect (α : Type) where
  left : α
  top : α
  width : α
  height : α

/-- Pygame `Rect.right = left + width`. -/
def Rect.right {α : Type} [Add α] (r : Rect α) : α := r.left + r.width

/-- Shelf height used for the pad: the `pad_y` left by the flattening pass,
or the fallback `int(HEIGHT*0.6) = 390` when it is still `None`
(source line 94). -/
def padYOf (r0 : RandState) : Int :=
  ((flattenLoop (padXOf r0) (terrainPts r0) none).2).getD 390

/-- Source `generate_terrain` (lines 69-96): build the raw polyline, draw the
pad centre, flatten the band around it, and build
`pygame.Rect(pad_x - PAD_WIDTH//2, pad_y - PAD_HEIGHT//2, PAD_WIDTH, PAD_HEIGHT)`. -/
def generate_terrain (r0 : RandState) : List (Int × Int) × Rect Int :=
  let pad_x := padXOf r0
  let t := flattenLoop pad_x (terrainPts r0) none
  let pad_y := t.2.getD 390
  (t.1, ⟨pad_x - PAD_WIDTH / 2, pad_y - PAD_HEIGHT / 2, PAD_WIDTH, PAD_HEIGHT⟩)

/-- Expected sequence of x-coordinates produced by the terrain loop started
at `x` with the given fuel. -/
def xlist (x : Int) : Nat → List Int
  | 0 => []
  | n + 1 => if x ≤ WIDTH then x :: xlist (x + 30) n else []

/-! Lemmas about the random draws and the terrain build loop. -/

/-- Result of `randint lo hi` lies in `[lo, hi]` whenever `lo ≤ hi`. -/
theorem randint_bounds {lo hi : Int} (r : RandState) (h : lo ≤ hi) :
    lo ≤ (randint lo hi r).1 ∧ (randint lo hi r).1 ≤ hi := by
  have h1 : (0 : Int) < hi - lo + 1 := by omega
  have h2 : 0 ≤ (r.stream r.idx - lo) % (hi - lo + 1) :=
    Int.emod_nonneg _ (by omega)
  have h3 : (r.stream r.idx - lo) % (hi - lo + 1) < hi - lo + 1 :=
    Int.emod_lt_of_pos _ h1
  simp only [randint]
  omega

/-- Result of `clamp` lies in `[lo, hi]` whenever `lo ≤ hi`. -/
theorem clamp_bounds (x lo hi : Int) (h : lo ≤ hi) :
    lo ≤ clamp x lo hi ∧ clamp x lo hi ≤ hi := by
  simp only [clamp]
  omega

/-- Every point the terrain loop emits has its y inside the clamp band,
provided the incoming y does. -/
theorem terrainLoop_mem_y :
    ∀ (n : Nat) (r : RandState) (x y : Int), 227 ≤ y → y ≤ 552 →
      ∀ p ∈ (terrainLoop r x y n).1, 227 ≤ p.2 ∧ p.2 ≤ 552 := by
  intro n
  induction n with
  | zero => intro r x y _ _ p hp; simp [terrainLoop] at hp
  | succ n ih =>
    intro r x y hy1 hy2 p hp
    by_cases hx : x ≤ WIDTH
    · simp only [terrainLoop, if_pos hx, List.mem_cons] at hp
      rcases hp with hp | hp
      · subst hp; exact ⟨hy1, hy2⟩
      · have hc := clamp_bounds (y + (randint (-35) 35 r).1) 227 552 (by omega)
        exact ih _ _ _ hc.1 hc.2 p hp
    · simp [terrainLoop, hx] at hp

/-- X-coordinates the terrain loop emits are exactly `xlist x n`. -/
theorem terrainLoop_map_fst :
    ∀ (n : Nat) (r : RandState) (x y : Int),
      ((terrainLoop r x y n).1).map Prod.fst = xlist x n := by
  intro n
  induction n with
  | zero => intro r x y; simp [terrainLoop, xlist]
  | succ n ih =>
    intro r x y
    by_cases hx : x ≤ WIDTH
    · simp [terrainLoop, xlist, hx, ih]
    · simp [terrainLoop, xlist, hx]

/-- Concrete value of the x-ladder for the real loop: 0, 30, ..., 900. -/
theorem xlist_zero :
    xlist 0 32 = (List.range 31).map (fun k => (30 : Int) * k) := by decide

/-- Raw terrain x-coordinates are 0, 30, ..., 900. -/
theorem terrainPts_map_fst (r : RandState) :
    (terrainPts r).map Prod.fst = (List.range 31).map (fun k => (30 : Int) * k) := by
  unfold terrainPts terrainDraws
  rw [terrainLoop_map_fst, xlist_zero]

/-- Raw terrain y-coordinates lie in the clamp band `[227, 552]`. -/
theorem terrainPts_y_bounds (r : RandState) :
    ∀ p ∈ terrainPts r, 227 ≤ p.2 ∧ p.2 ≤ 552 := by
  unfold terrainPts terrainDraws
  have h0 := randint_bounds r (show (292 : Int) ≤ 454 by omega)
  exact terrainLoop_mem_y 32 _ 0 _ (by omega) (by omega)

/-! Lemmas about the flattening pass. -/

/-- Flattening does not change the x-coordinates. -/
theorem flattenLoop_map_fst (pad_x : Int) :
    ∀ (l : List (Int × Int)) (acc : Option Int),
      ((flattenLoop pad_x l acc).1).map Prod.fst = l.map Prod.fst := by
  intro l
  induction l with
  | nil => intro acc; simp [flattenLoop]
  | cons a rest ih =>
    intro acc
    obtain ⟨px, py⟩ := a
    by_cases hb : inBand pad_x px
    · simp only [flattenLoop, if_pos hb, List.map_cons, ih]
    · simp only [flattenLoop, if_neg hb, List.map_cons, ih]

/-- Every y in the flattened list satisfies any predicate holding for all
input ys and for the accumulated shelf height. -/
theorem flattenLoop_preserves (P : Int → Prop) (pad_x : Int) :
    ∀ (l : List (Int × Int)) (acc : Option Int),
      (∀ q ∈ l, P q.2) → (∀ y₀, acc = some y₀ → P y₀) →
      ∀ p ∈ (flattenLoop pad_x l acc).1, P p.2 := by
  intro l
  induction l with
  | nil => intro acc _ _ p hp; simp [flattenLoop] at hp
  | cons a rest ih =>
    intro acc hl hacc p hp
    obtain ⟨px, py⟩ := a
    have hy0 : P (acc.getD py) := by
      cases acc with
      | none => exact hl (px, py) (by simp)
      | some y₀ => exact hacc y₀ rfl
    by_cases hb : inBand pad_x px
    · simp only [flattenLoop, if_pos hb, List.mem_cons] at hp
      rcases hp with hp | hp
      · subst hp; exact hy0
      · refine ih (some (acc.getD py)) (fun q hq => hl q (by simp [hq])) ?_ p hp
        intro y₀ hy
        injection hy with hy
        exact hy ▸ hy0
    · simp only [flattenLoop, if_neg hb, List.mem_cons] at hp
      rcases hp with hp | hp
      · subst hp; exact hl (px, py) (by simp)
      · exact ih acc (fun q hq => hl q (by simp [hq])) hacc p hp

/-- Once the shelf height is fixed, it never changes, and every in-band
point of the output carries it. -/
theorem flattenLoop_some_acc (pad_x y₀ : Int) :
    ∀ l : List (Int × Int),
      (flattenLoop pad_x l (some y₀)).2 = some y₀ ∧
      ∀ p ∈ (flattenLoop pad_x l (some y₀)).1, inBand pad_x p.1 → p.2 = y₀ := by
  intro l
  induction l with
  | nil => simp [flattenLoop]
  | cons a rest ih =>
    obtain ⟨px, py⟩ := a
    by_cases hb : inBand pad_x px
    · refine ⟨by simp only [flattenLoop, if_pos hb]; simpa using ih.1, ?_⟩
      intro p hp hband
      simp only [flattenLoop, if_pos hb, List.mem_cons] at hp
      rcases hp with hp | hp
      · subst hp; rfl
      · exact ih.2 p (by simpa using hp) hband
    · refine ⟨by simp only [flattenLoop, if_neg hb]; exact ih.1, ?_⟩
      intro p hp hband
      simp only [flattenLoop, if_neg hb, List.mem_cons] at hp
      rcases hp with hp | hp
      · subst hp; exact absurd hband hb
      · exact ih.2 p hp hband

/-- Starting from `None`, every in-band point of the output carries the
final accumulated shelf height. -/
theorem flattenLoop_none_flat (pad_x : Int) :
    ∀ l : List (Int × Int), ∀ p ∈ (flattenLoop pad_x l none).1,
      inBand pad_x p.1 → some p.2 = (flattenLoop pad_x l none).2 := by
  intro l
  induction l with
  | nil => intro p hp; simp [flattenLoop] at hp
  | cons a rest ih =>
    obtain ⟨px, py⟩ := a
    intro p hp hband
    by_cases hb : inBand pad_x px
    · have hacc := flattenLoop_some_acc pad_x py rest
      simp only [flattenLoop, if_pos hb, Option.getD_none, List.mem_cons] at hp ⊢
      rcases hp with hp | hp
      · subst hp; exact hacc.1.symm
      · rw [hacc.1]; exact congrArg some (hacc.2 p hp hband)
    · simp only [flattenLoop, if_neg hb, List.mem_cons] at hp ⊢
      rcases hp with hp | hp
      · subst hp; exact absurd hband hb
      · exact ih p hp hband

/-- If some input point lies in the band, the pass ends with the shelf
height of such a point (so the `None` fallback is never used). -/
theorem flattenLoop_finds (pad_x : Int) :
    ∀ l : List (Int × Int), (∃ q ∈ l, inBand pad_x q.1) →
      ∃ q ∈ l, inBand pad_x q.1 ∧ (flattenLoop pad_x l none).2 = some q.2 := by
  intro l
  induction l with
  | nil => intro h; simp at h
  | cons a rest ih =>
    obtain ⟨px, py⟩ := a
    intro h
    by_cases hb : inBand pad_x px
    · refine ⟨(px, py), by simp, hb, ?_⟩
      simp only [flattenLoop, if_pos hb, Option.getD_none]
      exact (flattenLoop_some_acc pad_x py rest).1
    · obtain ⟨q, hq, hqb⟩ := h
      rcases List.mem_cons.1 hq with hq1 | hq1
      · subst hq1; exact absurd hqb hb
      · obtain ⟨q', hq', hq'b, hq'eq⟩ := ih ⟨q, hq1, hqb⟩
        refine ⟨q', List.mem_cons_of_mem _ hq', hq'b, ?_⟩
        simp only [flattenLoop, if_neg hb]
        exact hq'eq

/-- Projection helper: the points component of `generate_terrain`. -/
theorem generate_terrain_fst (r : RandState) :
    (generate_terrain r).1 = (flattenLoop (padXOf r) (terrainPts r) none).1 := rfl

/-- Projection helper: the pad rectangle built by `generate_terrain`. -/
theorem generate_terrain_snd (r : RandState) :
    (generate_terrain r).2 =
      ⟨padXOf r - PAD_WIDTH / 2, padYOf r - PAD_HEIGHT / 2, PAD_WIDTH, PAD_HEIGHT⟩ := rfl

/-- Concrete draw stream whose raw draws are all zero: the terrain is the
flat line y = 326, the pad centre lands at x = 586 and the shelf height is
326. -/
def flatStream : RandState := ⟨fun _ => 0, 0⟩

/-- Concrete draw stream that first selects the starting height 292 and then
always perturbs by -35, driving the terrain onto the clamp floor 227 by the
third point. -/
def downStream : RandState := ⟨fun n => if n = 0 then 292 else -35, 0⟩

/-- C1: the claim as stated fails on the code.  With the all-zero draw
stream the flattened shelf height is 326 but the pad rectangle's top edge is
322: `generate_terrain` centres the pad vertically on the shelf
(`pad_y - PAD_HEIGHT//2`) instead of putting its top edge at `pad_y`. -/
theorem c1_counterexample :
    (generate_terrain flatStream).2.top ≠ padYOf flatStream := by decide

/-- C1 (amended): for every seed the pad rectangle's top edge sits at
`pad_y - PAD_HEIGHT//2`, i.e. `PAD_HEIGHT//2 = 4` pixels above the flattened
shelf height: the pad is vertically centred on the shelf y-value. -/
theorem c1_amended_pad_top (r : RandState) :
    (generate_terrain r).2.top = padYOf r - PAD_HEIGHT / 2 := rfl

/-- C3: determinism.  `generate_terrain` depends only on the seed's draw
stream and starting index, so two calls made from equal generator states
return the same point sequence and a pad rectangle with the same left, top,
width and height. -/
theorem c3_determinism (r r' : RandState) (hs : r.stream = r'.stream)
    (hi : r.idx = r'.idx) :
    (generate_terrain r).1 = (generate_terrain r').1 ∧
    (generate_terrain r).2.left = (generate_terrain r').2.left ∧
    (generate_terrain r).2.top = (generate_terrain r').2.top ∧
    (generate_terrain r).2.width = (generate_terrain r').2.width ∧
    (generate_terrain r).2.height = (generate_terrain r').2.height := by
  obtain ⟨s, i⟩ := r
  obtain ⟨s', i'⟩ := r'
  cases hs
  cases hi
  exact ⟨rfl, rfl, rfl, rfl, rfl⟩

/-- Witness for C3 at a concrete seed. -/
theorem c3_determinism_witness :
    (generate_terrain flatStream).1 = (generate_terrain flatStream).1 ∧
    (generate_terrain flatStream).2.left = (generate_terrain flatStream).2.left ∧
    (generate_terrain flatStream).2.top = (generate_terrain flatStream).2.top ∧
    (generate_terrain flatStream).2.width = (generate_terrain flatStream).2.width ∧
    (generate_terrain flatStream).2.height = (generate_terrain flatStream).2.height :=
  c3_determinism flatStream flatStream rfl rfl

/-- C7: the claim as stated fails on the code.  The clamp floor is
`int(HEIGHT*0.35) = 227`, strictly below `HEIGHT*0.35 = 227.5`, and it is
reached: with `downStream` the terrain contains the point (60, 227). -/
theorem c7_counterexample :
    ¬ ∀ p ∈ (generate_terrain downStream).1,
        (650 : ℚ) * (35 / 100) ≤ (p.2 : ℚ) ∧ (p.2 : ℚ) ≤ (650 : ℚ) * (85 / 100) := by
  intro h
  have h2 := (h (60, 227) (by decide)).1
  norm_num at h2

/-- C7 (amended): every terrain point's y lies in the code's clamp band
`[int(HEIGHT*0.35), int(HEIGHT*0.85)] = [227, 552]`, and the x-coordinates
are exactly 0, 30, ..., 900, i.e. they climb by the fixed step 30 from 0 up
to and including `WIDTH`. -/
theorem c7_amended_terrain_bounds (r : RandState) :
    (∀ p ∈ (generate_terrain r).1, 227 ≤ p.2 ∧ p.2 ≤ 552) ∧
    ((generate_terrain r).1).map Prod.fst =
      (List.range 31).map (fun k => (30 : Int) * k) := by
  constructor
  · intro p hp
    rw [generate_terrain_fst] at hp
    exact flattenLoop_preserves (fun y => 227 ≤ y ∧ y ≤ 552) (padXOf r)
      (terrainPts r) none (terrainPts_y_bounds r) (by intro y₀ h; cases h) p hp
  · rw [generate_terrain_fst, flattenLoop_map_fst, terrainPts_map_fst]

/-- Witness for C7 (amended) at a concrete seed and terrain point. -/
theorem c7_amended_witness :
    ((0, 326) ∈ (generate_terrain flatStream).1 ∧
      (227 ≤ (326 : Int) ∧ (326 : Int) ≤ 552)) ∧
    ((generate_terrain flatStream).1).map Prod.fst =
      (List.range 31).map (fun k => (30 : Int) * k) :=
  ⟨⟨by decide, (c7_amended_terrain_bounds flatStream).1 (0, 326) (by decide)⟩,
   (c7_amended_terrain_bounds flatStream).2⟩

/-- C8: every flattened terrain point whose x lies in the pad's flattening
band carries exactly the shelf height `pad_y` — the value from which the pad
rectangle is derived. -/
theorem c8_pad_flatness (r : RandState) :
    ∀ p ∈ (generate_terrain r).1, inBand (padXOf r) p.1 → p.2 = padYOf r := by
  intro p hp hband
  rw [generate_terrain_fst] at hp
  have h := flattenLoop_none_flat (padXOf r) (terrainPts r) p hp hband
  unfold padYOf
  rw [← h]
  rfl

/-- Witness for C8 at a concrete seed and in-band point. -/
theorem c8_pad_flatness_witness :
    (510, 326) ∈ (generate_terrain flatStream).1 ∧
    inBand (padXOf flatStream) 510 ∧
    ((510 : Int), (326 : Int)).2 = padYOf flatStream :=
  ⟨by decide, by decide,
   c8_pad_flatness flatStream (510, 326) (by decide) (by decide)⟩

/-- C10: the flattening band always contains a raw terrain point, the shelf
height `pad_y` is taken from such a point, and the fallback
`int(HEIGHT*0.6) = 390` of line 94 is unreachable. -/
theorem c10_fallback_unreachable (r : RandState) :
    ∃ q ∈ terrainPts r, inBand (padXOf r) q.1 ∧
      (flattenLoop (padXOf r) (terrainPts r) none).2 = some q.2 ∧
      padYOf r = q.2 := by
  have hpx : 135 ≤ padXOf r ∧ padXOf r ≤ 720 := by
    unfold padXOf
    exact randint_bounds _ (by omega)
  obtain ⟨k, hk31, hk1, hk2⟩ :
      ∃ k : Nat, k < 31 ∧ padXOf r - 90 ≤ 30 * (k : Int) ∧
        30 * (k : Int) ≤ padXOf r + 90 := by
    refine ⟨((padXOf r + 90) / 30).toNat, ?_, ?_, ?_⟩ <;> omega
  have hmem : (30 * (k : Int)) ∈ (terrainPts r).map Prod.fst := by
    rw [terrainPts_map_fst]
    exact List.mem_map_of_mem (fun k : Nat => (30 : Int) * k) (List.mem_range.2 hk31)
  obtain ⟨q, hq, hqx⟩ := List.mem_map.1 hmem
  have hband : inBand (padXOf r) q.1 := by
    simp only [inBand, PAD_WIDTH]
    omega
  obtain ⟨q', hq', hq'b, hq'eq⟩ :=
    flattenLoop_finds (padXOf r) (terrainPts r) ⟨q, hq, hband⟩
  refine ⟨q', hq', hq'b, hq'eq, ?_⟩
  unfold padYOf
  rw [hq'eq]
  rfl

/-! Geometry utilities and the vehicle model, over `ℝ`. -/

/-- Gravity acceleration per tick (`GRAVITY = 0.12`). -/
noncomputable def GRAVITY : ℝ := 0.12

/-- Main engine acceleration (`MAIN_THRUST = 0.22`). -/
noncomputable def MAIN_THRUST : ℝ := 0.22

/-- Side (RCS) acceleration (`SIDE_THRUST = 0.08`). -/
noncomputable def SIDE_THRUST : ℝ := 0.08

/-- Rotation speed in degrees per second (`ROT_SPEED = 120`). -/
noncomputable def ROT_SPEED : ℝ := 120

/-- Starting fuel (`FUEL_START = 100.0`). -/
noncomputable def FUEL_START : ℝ := 100

/-- Main engine burn rate (`FUEL_MAIN_BURN = 20.0`). -/
noncomputable def FUEL_MAIN_BURN : ℝ := 20

/-- RCS burn rate (`FUEL_RCS_BURN = 6.0`). -/
noncomputable def FUEL_RCS_BURN : ℝ := 6

/-- Maximum safe landing tilt in degrees (`MAX_LAND_ANGLE = 8`). -/
noncomputable def MAX_LAND_ANGLE : ℝ := 8

/-- Maximum safe horizontal landing speed (`MAX_VX = 1.8`). -/
noncomputable def MAX_VX : ℝ := 1.8

/-- Maximum safe vertical landing speed (`MAX_VY = 2.5`). -/
noncomputable def MAX_VY : ℝ := 2.5

/-- Degrees to radians, as `math.radians`. -/
noncomputable def radians (deg : ℝ) : ℝ := deg * Real.pi / 180

/-- Source `rot_point(px, py, cx, cy, angle_deg)` (lines 45-49): rotate the
point about the centre. -/
noncomputable def rot_point (px py cx cy angle_deg : ℝ) : ℝ × ℝ :=
  ((px - cx) * Real.cos (radians angle_deg) - (py - cy) * Real.sin (radians angle_deg) + cx,
   (px - cx) * Real.sin (radians angle_deg) + (py - cy) * Real.cos (radians angle_deg) + cy)

/-- Determinant of `line_intersect`
(`den = (x1-x2)*(y3-y4) - (y1-y2)*(x3-x4)`, line 55). -/
def lineDen {α : Type} [LinearOrderedField α] (a b c d : α × α) : α :=
  (a.1 - b.1) * (c.2 - d.2) - (a.2 - b.2) * (c.1 - d.1)

/-- Parameter `t` of `line_intersect` (line 58). -/
def lineT {α : Type} [LinearOrderedField α] (a b c d : α × α) : α :=
  ((a.1 - c.1) * (c.2 - d.2) - (a.2 - c.2) * (c.1 - d.1)) / lineDen a b c d

/-- Parameter `u` of `line_intersect` (line 59). -/
def lineU {α : Type} [LinearOrderedField α] (a b c d : α × α) : α :=
  ((a.1 - c.1) * (a.2 - b.2) - (a.2 - c.2) * (a.1 - b.1)) / lineDen a b c d

/-- Source `line_intersect(a, b, c, d)` (lines 51-64): segment-segment
intersection, returning `(hit, t, u, point)`; no-hit when the determinant is
within the `1e-8` tolerance or a parameter leaves `[0, 1]`.  Polymorphic over
the scalar field; the game uses it over `ℝ`. -/
def line_intersect {α : Type} [LinearOrderedField α] (a b c d : α × α) :
    Bool × Option α × Option α × Option (α × α) :=
  if |lineDen a b c d| < 1 / 10 ^ 8 then (false, none, none, none)
  else
    let t := lineT a b c d
    let u := lineU a b c d
    if 0 ≤ t ∧ t ≤ 1 ∧ 0 ≤ u ∧ u ≤ 1 then
      (true, some t, some u, some (a.1 + t * (b.1 - a.1), a.2 + t * (b.2 - a.2)))
    else (false, none, none, none)

/-- Source `terrain_segments(points)` (lines 98-103): consecutive pairs. -/
def terrain_segments {α : Type} (points : List α) : List (α × α) :=
  points.zip points.tail

/-- Closed edge loop of a polygon: `zip(poly, poly[1:] + poly[:1])`
(source line 226). -/
def polyEdges {α : Type} (poly : List α) : List (α × α) :=
  poly.zip (poly.drop 1 ++ poly.take 1)

/-- Vehicle state (`Lander.__init__`, lines 109-115): position, velocity,
heading angle in degrees (0 = up), fuel, alive and landed flags. -/
structure Lander where
  pos : ℝ × ℝ
  vel : ℝ × ℝ
  angle : ℝ
  fuel : ℝ
  alive : Bool
  landed : Bool

/-- Body polygon in local coordinates (source lines 122-130, with `h = 28`,
`w = 18`, so `h//2 = 14`, `w//2 = 9`, `w//2 + 8 = 17`). -/
noncomputable def local_points : List (ℝ × ℝ) :=
  [(0, -14), (9, 14), (17, 14), (9, 14), (-9, 14), (-17, 14), (-9, 14)]

/-- Left foot tip in local coordinates (line 132). -/
noncomputable def left_foot_local : ℝ × ℝ := (-17, 14)

/-- Right foot tip in local coordinates (line 133). -/
noncomputable def right_foot_local : ℝ × ℝ := (17, 14)

/-- Source `Lander.world_polygon` (lines 135-139): each local point,
translated to the vehicle position and rotated about it by the heading. -/
noncomputable def Lander.world_polygon (l : Lander) : List (ℝ × ℝ) :=
  local_points.map fun p =>
    rot_point (l.pos.1 + p.1) (l.pos.2 + p.2) l.pos.1 l.pos.2 l.angle

/-- Source `Lander.foot_points` (lines 141-153).  The first computation of
`rf` passes the centre `(pos.x, pos.y + c - c) = (pos.x, pos.y)` and is in
any case immediately overwritten by the corrected call with the same centre,
so both feet are the local foot tips rotated about the vehicle centre. -/
noncomputable def Lander.foot_points (l : Lander) : (ℝ × ℝ) × (ℝ × ℝ) :=
  (rot_point (l.pos.1 + left_foot_local.1) (l.pos.2 + left_foot_local.2)
     l.pos.1 l.pos.2 l.angle,
   rot_point (l.pos.1 + right_foot_local.1) (l.pos.2 + right_foot_local.2)
     l.pos.1 l.pos.2 l.angle)

/-- Python float `%` with positive divisor: `a - b * floor(a / b)`, the
value in `[0, b)` congruent to `a`. -/
noncomputable def pymod (a b : ℝ) : ℝ := a - b * ⌊a / b⌋

/-- Keyboard snapshot restricted to the keys `Lander.update` reads. -/
structure Keys where
  left : Bool
  a : Bool
  right : Bool
  d : Bool
  up : Bool
  w : Bool
  space : Bool
  q : Bool
  comma : Bool
  e : Bool
  period : Bool

/-- Pygame `Vector2.rotate(angle_deg)`: rotation by the angle in degrees
(used for the thrust vector, line 173). -/
noncomputable def rotateVec (v : ℝ × ℝ) (deg : ℝ) : ℝ × ℝ :=
  (v.1 * Real.cos (radians deg) - v.2 * Real.sin (radians deg),
   v.1 * Real.sin (radians deg) + v.2 * Real.cos (radians deg))

/-- Python `self.fuel = max(0.0, self.fuel - rate * dt)` pattern. -/
noncomputable def burn (f amount : ℝ) : ℝ := max 0 (f - amount)

/-- Body of `Lander.update` past the terminal-state early return
(source lines 159-203).  Sequential mutation is modelled by chained lets:
each fuel guard `self.fuel > 0` reads the fuel left by the previous burn,
exactly as the Python statements execute in order. -/
noncomputable def Lander.updateLive (l : Lander) (dt : ℝ) (keys : Keys) : Lander × Bool :=
  let rotL := (keys.left || keys.a) = true ∧ 0 < l.fuel
  let angle1 := if rotL then l.angle - ROT_SPEED * dt else l.angle
  let fuel1 := if rotL then burn l.fuel (FUEL_RCS_BURN * dt) else l.fuel
  let rotR := (keys.right || keys.d) = true ∧ 0 < fuel1
  let angle2 := if rotR then angle1 + ROT_SPEED * dt else angle1
  let fuel2 := if rotR then burn fuel1 (FUEL_RCS_BURN * dt) else fuel1
  let thrustOn := (keys.up || keys.w || keys.space) = true ∧ 0 < fuel2
  let acc1 : ℝ × ℝ :=
    if thrustOn then
      (0 + (rotateVec (0, -MAIN_THRUST) angle2).1,
       GRAVITY + (rotateVec (0, -MAIN_THRUST) angle2).2)
    else (0, GRAVITY)
  let fuel3 := if thrustOn then burn fuel2 (FUEL_MAIN_BURN * dt) else fuel2
  let strafeL := (keys.q || keys.comma) = true ∧ 0 < fuel3
  let acc2 := if strafeL then (acc1.1 - SIDE_THRUST, acc1.2) else acc1
  let fuel4 := if strafeL then burn fuel3 (FUEL_RCS_BURN * dt) else fuel3
  let strafeR := (keys.e || keys.period) = true ∧ 0 < fuel4
  let acc3 := if strafeR then (acc2.1 + SIDE_THRUST, acc2.2) else acc2
  let fuel5 := if strafeR then burn fuel4 (FUEL_RCS_BURN * dt) else fuel4
  let vel1 : ℝ × ℝ := (l.vel.1 + acc3.1, l.vel.2 + acc3.2)
  let pos1 : ℝ × ℝ := (l.pos.1 + vel1.1, l.pos.2 + vel1.2)
  let posx2 := if pos1.1 < -30 then (WIDTH : ℝ) + 30 else pos1.1
  let posx3 := if posx2 > (WIDTH : ℝ) + 30 then (-30 : ℝ) else posx2
  let posy2 := if pos1.2 < 20 then (20 : ℝ) else pos1.2
  let vely2 := if pos1.2 < 20 then max vel1.2 0 else vel1.2
  let alive1 := if posy2 > (HEIGHT : ℝ) + 50 then false else l.alive
  (⟨(posx3, posy2), (vel1.1, vely2), angle2, fuel5, alive1, l.landed⟩,
   if thrustOn then true else false)

/-- Source `Lander.update(dt, keys)` (lines 155-203).  The early return on a
terminal state (line 156-157) returns Python `None`; only the state matters
for the claims, the second component models the returned thrusting flag
(falsy on the early return). -/
noncomputable def Lander.update (l : Lander) (dt : ℝ) (keys : Keys) : Lander × Bool :=
  if l.alive = false ∨ l.landed = true then (l, false)
  else l.updateLive dt keys

/-- Classification outcome: the source's result strings "none", "land",
"crash". -/
inductive CollisionResult where
  | none
  | land
  | crash

/-- Source `check_collision_and_landing(lander, terrain_pts, pad_rect)`
(lines 223-255).  The nested `for` loops with `break` compute exactly
whether some polygon edge hits some terrain segment (`List.any`); the early
`return "none"` is rendered as the `else` branch of the same test. -/
noncomputable def check_collision_and_landing (lander : Lander)
    (terrain_pts : List (ℝ × ℝ)) (pad_rect : Rect ℝ) : CollisionResult :=
  let poly_edges := polyEdges lander.world_polygon
  let segs := terrain_segments terrain_pts
  let hit_any := poly_edges.any fun e =>
    segs.any fun s => (line_intersect e.1 e.2 s.1 s.2).1
  if hit_any then
    let lf := lander.foot_points.1
    let rf := lander.foot_points.2
    let feet_in_x := (pad_rect.left ≤ lf.1 ∧ lf.1 ≤ pad_rect.right) ∧
      (pad_rect.left ≤ rf.1 ∧ rf.1 ≤ pad_rect.right)
    let feet_on_y := max lf.2 rf.2 ≤ pad_rect.top + 10 ∧
      pad_rect.top - 14 ≤ max lf.2 rf.2
    let angle_ok := |pymod (lander.angle + 360) 360 - 0| ≤ MAX_LAND_ANGLE ∨
      |pymod (lander.angle + 360) 360 - 360| ≤ MAX_LAND_ANGLE
    let vx_ok := |lander.vel.1| ≤ MAX_VX
    let vy_ok := |lander.vel.2| ≤ MAX_VY
    if feet_in_x ∧ feet_on_y ∧ angle_ok ∧ vx_ok ∧ vy_ok then .land else .crash
  else .none

/-- Spec wording of the collision condition of C2: some edge of the lander's
world polygon intersects some terrain segment. -/
def specEdgeHit (lander : Lander) (terrain_pts : List (ℝ × ℝ)) : Prop :=
  ∃ e ∈ polyEdges lander.world_polygon, ∃ s ∈ terrain_segments terrain_pts,
    (line_intersect e.1 e.2 s.1 s.2).1 = true

/-- Spec wording of the landing conditions of C2: both feet x-coordinates in
`[pad.left, pad.right]`, the lower foot's y in `[pad.top-14, pad.top+10]`,
heading normalized to `[0, 360)` within `MAX_LAND_ANGLE` of 0 or of 360, and
both velocity components within the speed limits — all bounds inclusive. -/
def specLandOk (lander : Lander) (pad_rect : Rect ℝ) : Prop :=
  (pad_rect.left ≤ lander.foot_points.1.1 ∧ lander.foot_points.1.1 ≤ pad_rect.right ∧
   pad_rect.left ≤ lander.foot_points.2.1 ∧ lander.foot_points.2.1 ≤ pad_rect.right) ∧
  (pad_rect.top - 14 ≤ max lander.foot_points.1.2 lander.foot_points.2.2 ∧
   max lander.foot_points.1.2 lander.foot_points.2.2 ≤ pad_rect.top + 10) ∧
  (|pymod (lander.angle + 360) 360 - 0| ≤ MAX_LAND_ANGLE ∨
   |pymod (lander.angle + 360) 360 - 360| ≤ MAX_LAND_ANGLE) ∧
  |lander.vel.1| ≤ MAX_VX ∧ |lander.vel.2| ≤ MAX_VY

/-- Bridge between the code's boolean any-any search and the spec's
existential collision condition. -/
theorem specEdgeHit_iff_any (lander : Lander) (terrain_pts : List (ℝ × ℝ)) :
    ((polyEdges lander.world_polygon).any fun e =>
      (terrain_segments terrain_pts).any fun s =>
        (line_intersect e.1 e.2 s.1 s.2).1) = true
    ↔ specEdgeHit lander terrain_pts := by
  simp [specEdgeHit, List.any_eq_true]

/-- Bridge between the code's grouping of the landing conditions and the
spec's grouping. -/
theorem landCond_iff (lander : Lander) (pad_rect : Rect ℝ) :
    (((pad_rect.left ≤ lander.foot_points.1.1 ∧ lander.foot_points.1.1 ≤ pad_rect.right) ∧
      (pad_rect.left ≤ lander.foot_points.2.1 ∧ lander.foot_points.2.1 ≤ pad_rect.right)) ∧
     (max lander.foot_points.1.2 lander.foot_points.2.2 ≤ pad_rect.top + 10 ∧
      pad_rect.top - 14 ≤ max lander.foot_points.1.2 lander.foot_points.2.2) ∧
     (|pymod (lander.angle + 360) 360 - 0| ≤ MAX_LAND_ANGLE ∨
      |pymod (lander.angle + 360) 360 - 360| ≤ MAX_LAND_ANGLE) ∧
     |lander.vel.1| ≤ MAX_VX ∧ |lander.vel.2| ≤ MAX_VY)
    ↔ specLandOk lander pad_rect := by
  unfold specLandOk
  tauto

/-- C2: the classifier returns `none` exactly when no polygon edge meets any
terrain segment; on a hit it returns `land` exactly when all four landing
conditions hold (all thresholds inclusive), and `crash` otherwise. -/
theorem c2_classification (lander : Lander) (terrain_pts : List (ℝ × ℝ))
    (pad_rect : Rect ℝ) :
    (check_collision_and_landing lander terrain_pts pad_rect = CollisionResult.none ↔
      ¬ specEdgeHit lander terrain_pts) ∧
    (check_collision_and_landing lander terrain_pts pad_rect = CollisionResult.land ↔
      specEdgeHit lander terrain_pts ∧ specLandOk lander pad_rect) ∧
    (check_collision_and_landing lander terrain_pts pad_rect = CollisionResult.crash ↔
      specEdgeHit lander terrain_pts ∧ ¬ specLandOk lander pad_rect) := by
  unfold check_collision_and_landing
  by_cases hany : ((polyEdges lander.world_polygon).any fun e =>
      (terrain_segments terrain_pts).any fun s =>
        (line_intersect e.1 e.2 s.1 s.2).1) = true
  · have hhit := (specEdgeHit_iff_any lander terrain_pts).1 hany
    rw [if_pos hany]
    by_cases hok : specLandOk lander pad_rect
    · rw [if_pos ((landCond_iff lander pad_rect).2 hok)]
      exact ⟨⟨fun h => CollisionResult.noConfusion h, fun h => absurd hhit h⟩,
        ⟨fun _ => ⟨hhit, hok⟩, fun _ => rfl⟩,
        ⟨fun h => CollisionResult.noConfusion h, fun h => absurd hok h.2⟩⟩
    · rw [if_neg (fun hc => hok ((landCond_iff lander pad_rect).1 hc))]
      exact ⟨⟨fun h => CollisionResult.noConfusion h, fun h => absurd hhit h⟩,
        ⟨fun h => CollisionResult.noConfusion h, fun h => absurd h.2 hok⟩,
        ⟨fun _ => ⟨hhit, hok⟩, fun _ => rfl⟩⟩
  · have hnot := fun h => hany ((specEdgeHit_iff_any lander terrain_pts).2 h)
    rw [if_neg hany]
    exact ⟨⟨fun _ => hnot, fun _ => rfl⟩,
      ⟨fun h => CollisionResult.noConfusion h, fun h => absurd h.1 hnot⟩,
      ⟨fun h => CollisionResult.noConfusion h, fun h => absurd h.1 hnot⟩⟩

/-- C9: `line_intersect` reports no hit exactly when the determinant's
absolute value is below the 1e-8 tolerance (parallel or degenerate
segments) or one of the parameters `t`, `u` leaves `[0, 1]`; every no-hit
case returns the defined `(False, None, None, None)` tuple — degenerate
geometry is a defined result, never a fault, and the guarded division is
never performed on a near-zero determinant. -/
theorem c9_line_intersect_no_hit (a b c d : ℝ × ℝ) :
    ((line_intersect a b c d).1 = false ↔
      |lineDen a b c d| < 1 / 10 ^ 8 ∨
      ¬(0 ≤ lineT a b c d ∧ lineT a b c d ≤ 1 ∧
        0 ≤ lineU a b c d ∧ lineU a b c d ≤ 1)) ∧
    ((line_intersect a b c d).1 = false →
      line_intersect a b c d = (false, none, none, none)) := by
  unfold line_intersect
  dsimp only
  split_ifs with h1 h2
  · exact ⟨⟨fun _ => Or.inl h1, fun _ => rfl⟩, fun _ => rfl⟩
  · exact ⟨⟨fun h => False.elim h,
      fun h => h.elim (fun hlt => absurd hlt h1) fun hn => absurd h2 hn⟩,
      fun h => False.elim h⟩
  · exact ⟨⟨fun _ => Or.inr h2, fun _ => rfl⟩, fun _ => rfl⟩

/-- Witness for C9 on a concrete degenerate (zero-length) segment pair. -/
theorem c9_witness :
    (line_intersect ((0 : ℝ), 0) ((0 : ℝ), 0) ((0 : ℝ), 0) ((0 : ℝ), 0)).1 = false ∧
    line_intersect ((0 : ℝ), 0) ((0 : ℝ), 0) ((0 : ℝ), 0) ((0 : ℝ), 0) =
      (false, none, none, none) := by
  have h : (line_intersect ((0 : ℝ), 0) ((0 : ℝ), 0) ((0 : ℝ), 0) ((0 : ℝ), 0)).1
      = false := by
    norm_num [line_intersect, lineDen]
  exact ⟨h, (c9_line_intersect_no_hit _ _ _ _).2 h⟩

/-! Fuel and heading lemmas for `Lander.update`. -/

/-- A burn never leaves negative fuel. -/
theorem burn_nonneg (f amount : ℝ) : 0 ≤ burn f amount := le_max_left 0 _

/-- Burning a nonnegative amount never increases nonnegative fuel. -/
theorem burn_le_self (f amount : ℝ) (hf : 0 ≤ f) (ha : 0 ≤ amount) :
    burn f amount ≤ f := max_le hf (by linarith)

/-- One guarded burn step keeps fuel nonnegative and non-increasing. -/
theorem opt_burn_bound (c : Prop) [Decidable c] (f amount : ℝ) (hf : 0 ≤ f)
    (ha : 0 ≤ amount) :
    (if c then burn f amount else f) ≤ f ∧ 0 ≤ (if c then burn f amount else f) := by
  split_ifs with h
  · exact ⟨burn_le_self f amount hf ha, burn_nonneg f amount⟩
  · exact ⟨le_rfl, hf⟩

/-- Fuel component of `updateLive`: the chain of five guarded burns, each
guard reading the fuel left by the previous one. -/
theorem Lander.updateLive_fuel (l : Lander) (dt : ℝ) (keys : Keys) :
    (l.updateLive dt keys).1.fuel =
      (let fuel1 := if (keys.left || keys.a) = true ∧ 0 < l.fuel then
         burn l.fuel (FUEL_RCS_BURN * dt) else l.fuel
       let fuel2 := if (keys.right || keys.d) = true ∧ 0 < fuel1 then
         burn fuel1 (FUEL_RCS_BURN * dt) else fuel1
       let fuel3 := if (keys.up || keys.w || keys.space) = true ∧ 0 < fuel2 then
         burn fuel2 (FUEL_MAIN_BURN * dt) else fuel2
       let fuel4 := if (keys.q || keys.comma) = true ∧ 0 < fuel3 then
         burn fuel3 (FUEL_RCS_BURN * dt) else fuel3
       if (keys.e || keys.period) = true ∧ 0 < fuel4 then
         burn fuel4 (FUEL_RCS_BURN * dt) else fuel4) := rfl

/-- Fuel bound for the live branch of `update`. -/
theorem updateLive_fuel_bound (l : Lander) (dt : ℝ) (keys : Keys)
    (hdt : 0 ≤ dt) (hf : 0 ≤ l.fuel) :
    (l.updateLive dt keys).1.fuel ≤ l.fuel ∧ 0 ≤ (l.updateLive dt keys).1.fuel := by
  rw [Lander.updateLive_fuel]
  have hrcs : 0 ≤ FUEL_RCS_BURN * dt := by unfold FUEL_RCS_BURN; linarith
  have hmain : 0 ≤ FUEL_MAIN_BURN * dt := by unfold FUEL_MAIN_BURN; linarith
  dsimp only
  have h1 := opt_burn_bound ((keys.left || keys.a) = true ∧ 0 < l.fuel)
    l.fuel (FUEL_RCS_BURN * dt) hf hrcs
  set f1 := if (keys.left || keys.a) = true ∧ 0 < l.fuel then
    burn l.fuel (FUEL_RCS_BURN * dt) else l.fuel with hdf1
  have h2 := opt_burn_bound ((keys.right || keys.d) = true ∧ 0 < f1)
    f1 (FUEL_RCS_BURN * dt) h1.2 hrcs
  set f2 := if (keys.right || keys.d) = true ∧ 0 < f1 then
    burn f1 (FUEL_RCS_BURN * dt) else f1 with hdf2
  have h3 := opt_burn_bound ((keys.up || keys.w || keys.space) = true ∧ 0 < f2)
    f2 (FUEL_MAIN_BURN * dt) h2.2 hmain
  set f3 := if (keys.up || keys.w || keys.space) = true ∧ 0 < f2 then
    burn f2 (FUEL_MAIN_BURN * dt) else f2 with hdf3
  have h4 := opt_burn_bound ((keys.q || keys.comma) = true ∧ 0 < f3)
    f3 (FUEL_RCS_BURN * dt) h3.2 hrcs
  set f4 := if (keys.q || keys.comma) = true ∧ 0 < f3 then
    burn f3 (FUEL_RCS_BURN * dt) else f3 with hdf4
  have h5 := opt_burn_bound ((keys.e || keys.period) = true ∧ 0 < f4)
    f4 (FUEL_RCS_BURN * dt) h4.2 hrcs
  exact ⟨h5.1.trans (h4.1.trans (h3.1.trans (h2.1.trans h1.1))), h5.2⟩

/-- C4: one `update` step from nonnegative fuel, with nonnegative `dt`,
never increases the fuel and never leaves it negative. -/
theorem c4_fuel_monotone_nonneg (l : Lander) (dt : ℝ) (keys : Keys)
    (hdt : 0 ≤ dt) (hf : 0 ≤ l.fuel) :
    (l.update dt keys).1.fuel ≤ l.fuel ∧ 0 ≤ (l.update dt keys).1.fuel := by
  unfold Lander.update
  split_ifs with hterm
  · exact ⟨le_rfl, hf⟩
  · exact updateLive_fuel_bound l dt keys hdt hf

/-- Keyboard snapshot with no key held. -/
def keysNone : Keys :=
  ⟨false, false, false, false, false, false, false, false, false, false, false⟩

/-- Keyboard snapshot with only the left-rotation arrow held. -/
def keysLeft : Keys :=
  ⟨true, false, false, false, false, false, false, false, false, false, false⟩

/-- Concrete live vehicle with full fuel, upright, at rest. -/
noncomputable def hoverLander : Lander := ⟨(450, 120), (0, 0), 0, 100, true, false⟩

/-- Witness for C4 at a concrete state and tick. -/
theorem c4_witness :
    (0 : ℝ) ≤ 1 ∧ 0 ≤ hoverLander.fuel ∧
    ((hoverLander.update 1 keysNone).1.fuel ≤ hoverLander.fuel ∧
     0 ≤ (hoverLander.update 1 keysNone).1.fuel) :=
  ⟨by norm_num, by norm_num [hoverLander],
   c4_fuel_monotone_nonneg hoverLander 1 keysNone (by norm_num)
     (by norm_num [hoverLander])⟩

/-- C5: `update` is a no-op on a vehicle already landed or not alive:
position, velocity, heading and fuel are unchanged. -/
theorem c5_terminal_update_noop (l : Lander) (dt : ℝ) (keys : Keys)
    (h : l.landed = true ∨ l.alive = false) :
    (l.update dt keys).1.pos = l.pos ∧ (l.update dt keys).1.vel = l.vel ∧
    (l.update dt keys).1.angle = l.angle ∧ (l.update dt keys).1.fuel = l.fuel := by
  have hu : l.update dt keys = (l, false) := by
    unfold Lander.update
    exact if_pos (h.elim Or.inr Or.inl)
  rw [hu]
  exact ⟨rfl, rfl, rfl, rfl⟩

/-- Concrete vehicle already landed. -/
noncomputable def landedLander : Lander := ⟨(450, 120), (1, 2), 5, 50, true, true⟩

/-- Witness for C5 at a concrete landed state with a rotation key held. -/
theorem c5_witness :
    (landedLander.landed = true ∨ landedLander.alive = false) ∧
    ((landedLander.update 1 keysLeft).1.pos = landedLander.pos ∧
     (landedLander.update 1 keysLeft).1.vel = landedLander.vel ∧
     (landedLander.update 1 keysLeft).1.angle = landedLander.angle ∧
     (landedLander.update 1 keysLeft).1.fuel = landedLander.fuel) :=
  ⟨Or.inl rfl, c5_terminal_update_noop landedLander 1 keysLeft (Or.inl rfl)⟩

/-- Heading component of `updateLive`: both rotation updates sit inside
their `fuel > 0` guards, the second guard reading the fuel left by the
first burn. -/
theorem Lander.updateLive_angle (l : Lander) (dt : ℝ) (keys : Keys) :
    (l.updateLive dt keys).1.angle =
      (let angle1 := if (keys.left || keys.a) = true ∧ 0 < l.fuel then
         l.angle - ROT_SPEED * dt else l.angle
       let fuel1 := if (keys.left || keys.a) = true ∧ 0 < l.fuel then
         burn l.fuel (FUEL_RCS_BURN * dt) else l.fuel
       if (keys.right || keys.d) = true ∧ 0 < fuel1 then
         angle1 + ROT_SPEED * dt else angle1) := rfl

/-- C6: heading change and fuel burn share the `fuel > 0` gate: with fuel
exactly 0 a held rotation key leaves the heading unchanged, and with
positive fuel a held left-rotation key (right keys released, live vehicle)
moves the heading by exactly `-ROT_SPEED * dt`. -/
theorem c6_rotation_fuel_gated (l : Lander) (dt : ℝ) (keys : Keys) :
    (l.fuel = 0 → (l.update dt keys).1.angle = l.angle) ∧
    (l.alive = true → l.landed = false → 0 < l.fuel →
      (keys.left || keys.a) = true → keys.right = false → keys.d = false →
      (l.update dt keys).1.angle = l.angle - ROT_SPEED * dt) := by
  constructor
  · intro hf0
    unfold Lander.update
    split_ifs with hterm
    · rfl
    · rw [Lander.updateLive_angle]
      dsimp only
      have hcL : ¬((keys.left || keys.a) = true ∧ 0 < l.fuel) :=
        fun hc => lt_irrefl (0 : ℝ) (hf0 ▸ hc.2)
      simp only [if_neg hcL]
      have hcR : ¬((keys.right || keys.d) = true ∧ 0 < l.fuel) :=
        fun hc => lt_irrefl (0 : ℝ) (hf0 ▸ hc.2)
      simp only [if_neg hcR]
  · intro halive hlanded hfuel hkeys hright hd
    have hterm : ¬(l.alive = false ∨ l.landed = true) := by
      simp [halive, hlanded]
    unfold Lander.update
    rw [if_neg hterm, Lander.updateLive_angle]
    dsimp only
    have hcL : (keys.left || keys.a) = true ∧ 0 < l.fuel := ⟨hkeys, hfuel⟩
    simp only [if_pos hcL]
    have hcR : ¬((keys.right || keys.d) = true ∧
        0 < burn l.fuel (FUEL_RCS_BURN * dt)) := by
      intro hc
      have := hc.1
      rw [hright, hd] at this
      exact Bool.noConfusion this
    rw [if_neg hcR]

/-- Concrete live vehicle with zero fuel. -/
noncomputable def emptyLander : Lander := ⟨(450, 120), (0, 0), 30, 0, true, false⟩

/-- Witness for C6: zero fuel freezes the heading under a held rotation key;
full fuel with the left key held rotates by `-ROT_SPEED * dt`. -/
theorem c6_witness :
    (emptyLander.update 1 keysLeft).1.angle = emptyLander.angle ∧
    (hoverLander.update 1 keysLeft).1.angle = hoverLander.angle - ROT_SPEED * 1 :=
  ⟨(c6_rotation_fuel_gated emptyLander 1 keysLeft).1 rfl,
   (c6_rotation_fuel_gated hoverLander 1 keysLeft).2 rfl rfl
     (by norm_num [hoverLander]) rfl rfl rfl⟩
